import Mathlib

/-!
spotR-metrics: the metrics controller

A shallow embedding of `controllers/metrics.controller.js` and the properties of its
four handlers (`getServices`, `getMetricsForOneService`,
`getMetricsForOneServiceWithStatus`, `getAllMetrics`).

Conventions of the embedding:

* the module-level constant `services` (parsed once from `SERVICESLIST`) is an explicit
  argument of every handler;
* `axios.get` is an argument `up : Upstream`: for a URL it either resolves with a parsed
  body (`response.data`) or rejects with an error whose `message` is a string;
* a handler returns a `Run`: the URLs it handed to `axios.get`, in order, and the
  `Response` it wrote, i.e. the argument of `res.status` and the value handed to
  `res.send` / `res.json`;
* an exception inside a `try` block is the `Except.error` branch carrying `error.message`.
-/

namespace SpotRMetrics

/-! ## Data model -/

/-- A parsed JSON value, as found in `response.data`. -/
inductive Json where
  | null
  | bool (b : Bool)
  | num (q : ℚ)
  | str (s : String)
  | arr (items : List Json)
  | obj (fields : List (String × Json))

/-- One element of the `services` array: `{"name": ..., "url": ...}`. -/
structure Service where
  name : String
  url : String
deriving DecidableEq, Repr

/-- The behaviour of `axios.get`: for each URL, either the parsed body of the response or
the `message` of the error the promise rejects with. -/
abbrev Upstream := String → Except String Json

/-- The wording of the `TypeError`s the JavaScript engine raises inside the handlers. The
wording belongs to the engine, not to the repository, so it is left open. -/
structure Engine where
  /-- Message of the error raised by `response.data.filter(...)` when `response.data` is
  not an array (it has no callable `filter`). -/
  notAFunction : Json → String
  /-- Message of the error raised by reading `s.level` when `s` is `null`. -/
  nullRead : String

/-- The object literal `{ success, warn, error }` built by `getAllMetrics`. -/
structure Stats where
  success : Nat
  warn : Nat
  error : Nat
deriving DecidableEq, Repr

/-- One element of the array built by `getAllMetrics`: either `{ name, stats }` or
`{ name, error }`. -/
inductive Report where
  | stats (name : String) (stats : Stats)
  | failed (name : String) (error : String)
deriving DecidableEq, Repr

/-- The name carried by a report. -/
def Report.name : Report → String
  | .stats n _ => n
  | .failed n _ => n

/-- The value handed to `res.send` / `res.json`. -/
inductive Body where
  /-- A JSON value passed on: `response.data` or the filtered array. -/
  | data (v : Json)
  /-- The object literal `{ error: message }`. -/
  | error (message : String)
  /-- The array of reports of `getAllMetrics`. -/
  | reports (rs : List Report)
  /-- The `services` array itself. -/
  | services (ss : List Service)

/-- What a handler wrote on `res`. -/
structure Response where
  status : Nat
  body : Body

/-- One execution of a handler: the URLs passed to `axios.get`, in order, and the response. -/
structure Run where
  calls : List String
  response : Response

/-! ## JavaScript primitives used by the handlers -/

/-- Whether a JSON value is `null`. -/
def Json.isNull : Json → Bool
  | .null => true
  | _ => false

/-- Property read on a parsed object: the value bound to `key`, if any. When a key occurs
more than once in the text, `JSON.parse` keeps the last binding. -/
def getProp (fields : List (String × Json)) (key : String) : Option Json :=
  (fields.reverse.find? (fun kv => kv.1 == key)).map (fun kv => kv.2)

/-- The callback `(s) => s.level === status`. Reading a property of `null` throws; on
every other value that is not an object with a `level` property the read gives
`undefined`, which is not strictly equal to any string. -/
def levelIs (rt : Engine) (s : Json) (status : String) : Except String Bool :=
  match s with
  | .null => .error rt.nullRead
  | .obj fields =>
    match getProp fields "level" with
    | some (.str l) => .ok (l == status)
    | _ => .ok false
  | _ => .ok false

/-- The loop of `Array.prototype.filter` with the callback `levelIs`: elements are visited
in order, kept when the callback is true, and the first throw aborts the loop. -/
def filterLevel (rt : Engine) : List Json → String → Except String (List Json)
  | [], _ => .ok []
  | s :: rest, status =>
    match levelIs rt s status with
    | .error e => .error e
    | .ok keep =>
      match filterLevel rt rest status with
      | .error e => .error e
      | .ok kept => .ok (if keep then s :: kept else kept)

/-- The expression `response.data.filter((s) => s.level === status)`. -/
def dataFilterLevel (rt : Engine) (data : Json) (status : String) :
    Except String (List Json) :=
  match data with
  | .arr items => filterLevel rt items status
  | v => .error (rt.notAFunction v)

/-- The call `services.find((s) => s.name === name)`. -/
def findService (services : List Service) (name : String) : Option Service :=
  services.find? (fun s => s.name == name)

/-- The array `validStatuses` of `getMetricsForOneServiceWithStatus`. -/
def validStatuses : List String := ["info", "warning", "error"]

/-- The call `Promise.all` on the promises of the mapped services: it resolves with all
the values, in the order of the input, or rejects when one of them rejects. -/
def promiseAll {ε α : Type} : List (Except ε α) → Except ε (List α)
  | [] => .ok []
  | p :: ps =>
    match p with
    | .error e => .error e
    | .ok v =>
      match promiseAll ps with
      | .error e => .error e
      | .ok vs => .ok (v :: vs)

/-! ## The handlers -/

/-- The handler `getServices`. -/
def getServices (services : List Service) : Run :=
  { calls := [], response := { status := 200, body := .services services } }

/-- The handler `getMetricsForOneService`, for `req.params.name = name`. The branch of a
completed fetch records the call `res.status(200).send(response.data)`: the status set and
the value handed to `send`. For an array, an object or a string that is the answer on the
wire; what the `res` object makes of a number, a boolean or `null` handed to `send`
depends on the framework and is not part of this embedding. -/
def getMetricsForOneService (services : List Service) (up : Upstream) (name : String) :
    Run :=
  match findService services name with
  | none => { calls := [], response := { status := 404, body := .error "Service not found" } }
  | some service =>
    match up service.url with
    | .ok data =>
      { calls := [service.url], response := { status := 200, body := .data data } }
    | .error message =>
      { calls := [service.url],
        response :=
          { status := 500,
            body := .error ("Could not fetch metrics from " ++ service.name ++ ", "
              ++ message) } }

/-- The handler `getMetricsForOneServiceWithStatus`, for `req.params.name = name` and
`req.params.status = status`. -/
def getMetricsForOneServiceWithStatus (rt : Engine) (services : List Service)
    (up : Upstream) (name status : String) : Run :=
  match findService services name with
  | none => { calls := [], response := { status := 404, body := .error "Service not found" } }
  | some service =>
    if !validStatuses.contains status then
      { calls := [],
        response :=
          { status := 400,
            body := .error "Invalid status parameter. Must be one of: info, warning, error" } }
    else
      match (up service.url).bind (fun data => dataFilterLevel rt data status) with
      | .ok filteredResponse =>
        { calls := [service.url],
          response := { status := 200, body := .data (.arr filteredResponse) } }
      | .error message =>
        { calls := [service.url],
          response :=
            { status := 500,
              body := .error ("Could not fetch metrics from " ++ service.name ++ ", "
                ++ message) } }

/-- The body of the inner `try` of `getAllMetrics`: the fetch and the three counts. -/
def fetchStats (rt : Engine) (up : Upstream) (service : Service) : Except String Stats :=
  (up service.url).bind fun data =>
  (dataFilterLevel rt data "info").bind fun infos =>
  (dataFilterLevel rt data "warn").bind fun warns =>
  (dataFilterLevel rt data "error").bind fun errors =>
  .ok { success := infos.length, warn := warns.length, error := errors.length }

/-- The async callback mapped over `services` in `getAllMetrics`: the inner `try` with its
`catch`. The promise it returns never rejects. -/
def serviceReport (rt : Engine) (up : Upstream) (service : Service) :
    Except String Report :=
  match fetchStats rt up service with
  | .ok stats => .ok (.stats service.name stats)
  | .error message => .ok (.failed service.name ("Error fetching metrics: " ++ message))

/-- The handler `getAllMetrics`. Every mapped callback runs up to its `axios.get` when
`map` visits it, so the URLs are requested in registry order. -/
def getAllMetrics (rt : Engine) (services : List Service) (up : Upstream) : Run :=
  match promiseAll (services.map (serviceReport rt up)) with
  | .ok results =>
    { calls := services.map (fun s => s.url),
      response := { status := 200, body := .reports results } }
  | .error _ =>
    { calls := services.map (fun s => s.url),
      response := { status := 500, body := .error "Failed to fetch metrics from services" } }

/-! ## Vocabulary of the statements -/

/-- The level of an entry: the string bound to its `level` property, when the entry is an
object that has one. -/
def Json.level? : Json → Option String
  | .obj fields =>
    match getProp fields "level" with
    | some (.str l) => some l
    | _ => none
  | _ => none

/-- Whether the level of an entry is exactly `l`. -/
def hasLevel (l : String) (e : Json) : Bool :=
  e.level? == some l

/-- The entry `{ level: l }` used throughout the test-suite. -/
def entry (l : String) : Json := .obj [("level", .str l)]

/-- The first service of the test-suite. -/
def service1 : Service := { name := "service1", url := "http://service1/api/metrics" }

/-- The second service of the test-suite. -/
def service2 : Service := { name := "service2", url := "http://service2/api/metrics" }

/-- The registry of the test-suite. -/
def testServices : List Service := [service1, service2]

/-- A registry in which a name is repeated. -/
def repeatedServices : List Service :=
  [service2, service1, { name := "service1", url := "http://mirror/api/metrics" }]

/-- An engine with the wording of V8, for concrete evaluations. On a `null` body the
property read `response.data.filter` itself throws; on every other body that is not an
array the read gives `undefined` and the call throws. -/
def v8 : Engine :=
  { notAFunction := fun data =>
      match data with
      | .null => "Cannot read properties of null (reading 'filter')"
      | _ => "response.data.filter is not a function",
    nullRead := "Cannot read properties of null (reading 'level')" }

/-- The mocked `axios.get` of the test "should return metrics summary for all services". -/
def summaryUpstream : Upstream := fun url =>
  if url = "http://service1/api/metrics" then
    .ok (.arr [entry "info", entry "warn", entry "error", entry "info"])
  else if url = "http://service2/api/metrics" then
    .ok (.arr [entry "info", entry "error", entry "error"])
  else .error "Unknown URL"

/-- The mocked `axios.get` of the test "should handle axios errors gracefully". -/
def failingUpstream : Upstream := fun url =>
  if url = "http://service1/api/metrics" then .error "Network fail"
  else if url = "http://service2/api/metrics" then .ok (.arr [entry "info"])
  else .error "Unknown URL"

/-- Whether an entry is counted by `getAllMetrics`: its level is exactly `info`, `warn`
or `error`. -/
def counted (e : Json) : Bool :=
  hasLevel "info" e || hasLevel "warn" e || hasLevel "error" e

/-- An `axios.get` that answers every URL in the same way. -/
def constUpstream (r : Except String Json) : Upstream := fun _ => r

/-- An `axios.get` that agrees with `failingUpstream` on the URL of `service1` only. -/
def otherUpstream : Upstream := fun url =>
  if url = "http://service1/api/metrics" then .error "Network fail"
  else .ok (.str "maintenance")

/-- The body mocked in the test "should return filtered metrics by status". -/
def filterEntries : List Json := [entry "info", entry "warn", entry "info", entry "error"]

/-- A body mixing counted and uncounted levels. -/
def mixedEntries : List Json := [entry "info", entry "warning", entry "warn", .str "x"]

/-- A body that is an object, not an array of entries. -/
def objectBody : Json := .obj [("message", .str "maintenance")]

/-- The report the mapped callback of `getAllMetrics` resolves with. -/
def reportOf (rt : Engine) (up : Upstream) (service : Service) : Report :=
  match fetchStats rt up service with
  | .ok stats => .stats service.name stats
  | .error message => .failed service.name ("Error fetching metrics: " ++ message)

/-! ## Auxiliary facts -/

theorem promiseAll_map_ok {ε α β : Type} (f : α → β) (xs : List α) :
    promiseAll (xs.map (fun x => (Except.ok (f x) : Except ε β))) = .ok (xs.map f) := by
  induction xs with
  | nil => rfl
  | cons x xs ih => simp [promiseAll, ih]

theorem serviceReport_eq_ok (rt : Engine) (up : Upstream) (service : Service) :
    serviceReport rt up service = .ok (reportOf rt up service) := by
  unfold serviceReport reportOf
  cases fetchStats rt up service <;> rfl

theorem reportOf_name (rt : Engine) (up : Upstream) (service : Service) :
    (reportOf rt up service).name = service.name := by
  unfold reportOf
  cases fetchStats rt up service <;> rfl

/-- The inner `catch` makes the outer one unreachable: the run of `getAllMetrics` is the
registry mapped through `reportOf`. -/
theorem getAllMetrics_eq (rt : Engine) (services : List Service) (up : Upstream) :
    getAllMetrics rt services up =
      { calls := services.map (fun s => s.url),
        response := { status := 200, body := .reports (services.map (reportOf rt up)) } } := by
  have h : services.map (serviceReport rt up)
      = services.map (fun s => (Except.ok (reportOf rt up s) : Except String Report)) :=
    List.map_congr_left (fun s _ => serviceReport_eq_ok rt up s)
  unfold getAllMetrics
  rw [h, promiseAll_map_ok]

theorem levelIs_of_not_null (rt : Engine) (e : Json) (status : String)
    (h : e.isNull = false) : levelIs rt e status = .ok (hasLevel status e) := by
  cases e with
  | null => simp [Json.isNull] at h
  | obj fields =>
    simp only [levelIs, hasLevel, Json.level?]
    split <;> simp_all
  | _ => simp [levelIs, hasLevel, Json.level?]

theorem filterLevel_of_no_null (rt : Engine) (status : String) (E : List Json)
    (h : ∀ e ∈ E, e.isNull = false) :
    filterLevel rt E status = .ok (E.filter (hasLevel status)) := by
  induction E with
  | nil => rfl
  | cons e E ih =>
    have he : e.isNull = false := h e (List.mem_cons_self e E)
    have hE : ∀ x ∈ E, x.isNull = false := fun x hx => h x (List.mem_cons_of_mem e hx)
    simp only [filterLevel, levelIs_of_not_null rt e status he, ih hE, List.filter_cons]

theorem fetchStats_of_entries (rt : Engine) (up : Upstream) (service : Service)
    (E : List Json) (hup : up service.url = .ok (.arr E))
    (hE : ∀ e ∈ E, e.isNull = false) :
    fetchStats rt up service =
      .ok { success := (E.filter (hasLevel "info")).length,
            warn := (E.filter (hasLevel "warn")).length,
            error := (E.filter (hasLevel "error")).length } := by
  simp [fetchStats, hup, dataFilterLevel, filterLevel_of_no_null rt _ E hE, Except.bind]

theorem fetchStats_of_failure (rt : Engine) (up : Upstream) (service : Service)
    (m : String) (hup : up service.url = .error m) :
    fetchStats rt up service = .error m := by
  simp [fetchStats, hup, Except.bind]

theorem reportOf_congr (rt : Engine) (up up2 : Upstream) (service : Service)
    (h : up2 service.url = up service.url) :
    reportOf rt up2 service = reportOf rt up service := by
  simp [reportOf, fetchStats, h]

theorem getAllMetrics_report_at (rt : Engine) (services : List Service) (up : Upstream)
    (j : Nat) (s : Service) (hj : services[j]? = some s) :
    ∃ rs : List Report,
      (getAllMetrics rt services up).response.body = .reports rs ∧
      rs[j]? = some (reportOf rt up s) := by
  refine ⟨services.map (reportOf rt up), ?_, ?_⟩
  · rw [getAllMetrics_eq]
  · simp [List.getElem?_map, hj]

theorem reportOf_of_entries (rt : Engine) (up : Upstream) (s : Service) (E : List Json)
    (hup : up s.url = .ok (.arr E)) (hE : ∀ e ∈ E, e.isNull = false) :
    reportOf rt up s =
      .stats s.name
        { success := E.countP (hasLevel "info"),
          warn := E.countP (hasLevel "warn"),
          error := E.countP (hasLevel "error") } := by
  simp [reportOf, fetchStats_of_entries rt up s E hup hE, List.countP_eq_length_filter]

theorem counted_indicator (e : Json) :
    (if hasLevel "info" e then 1 else 0) + (if hasLevel "warn" e then 1 else 0)
        + (if hasLevel "error" e then 1 else 0)
      = if counted e then 1 else 0 := by
  unfold counted hasLevel
  cases h : e.level? with
  | none => simp
  | some l =>
    by_cases h1 : l = "info"
    · subst h1; decide
    · by_cases h2 : l = "warn"
      · subst h2; decide
      · by_cases h3 : l = "error"
        · subst h3; decide
        · simp [h1, h2, h3]

theorem countP_levels_add (E : List Json) :
    E.countP (hasLevel "info") + E.countP (hasLevel "warn") + E.countP (hasLevel "error")
      = E.countP counted := by
  induction E with
  | nil => rfl
  | cons e E ih =>
    have h := counted_indicator e
    simp only [List.countP_cons]
    omega

theorem findService_eq_none (services : List Service) (name : String) :
    findService services name = none ↔ ∀ s ∈ services, s.name ≠ name := by
  simp [findService]

theorem findService_first (services : List Service) (name : String) (s : Service) :
    findService services name = some s ↔
      s.name = name ∧ ∃ before after, services = before ++ s :: after
        ∧ ∀ t ∈ before, t.name ≠ name := by
  simp [findService, List.find?_eq_some]

theorem not_contains_validStatuses (status : String) :
    (!validStatuses.contains status) = true ↔
      status ≠ "info" ∧ status ≠ "warning" ∧ status ≠ "error" := by
  simp [validStatuses]

theorem getMetricsForOneService_of_found (services : List Service) (up : Upstream)
    (name : String) (s : Service) (hs : findService services name = some s) :
    getMetricsForOneService services up name =
      match up s.url with
      | .ok data => { calls := [s.url], response := { status := 200, body := .data data } }
      | .error message =>
        { calls := [s.url],
          response :=
            { status := 500,
              body := .error ("Could not fetch metrics from " ++ s.name ++ ", "
                ++ message) } } := by
  simp only [getMetricsForOneService, hs]

theorem withStatus_of_invalid (rt : Engine) (services : List Service) (up : Upstream)
    (name status : String) (s : Service) (hs : findService services name = some s)
    (hst : (!validStatuses.contains status) = true) :
    getMetricsForOneServiceWithStatus rt services up name status =
      { calls := [],
        response :=
          { status := 400,
            body :=
              .error "Invalid status parameter. Must be one of: info, warning, error" } } := by
  simp only [getMetricsForOneServiceWithStatus, hs, hst, if_true]

theorem withStatus_of_valid (rt : Engine) (services : List Service) (up : Upstream)
    (name status : String) (s : Service) (hs : findService services name = some s)
    (hst : (!validStatuses.contains status) = false) :
    getMetricsForOneServiceWithStatus rt services up name status =
      match (up s.url).bind (fun data => dataFilterLevel rt data status) with
      | .ok filteredResponse =>
        { calls := [s.url],
          response := { status := 200, body := .data (.arr filteredResponse) } }
      | .error message =>
        { calls := [s.url],
          response :=
            { status := 500,
              body := .error ("Could not fetch metrics from " ++ s.name ++ ", "
                ++ message) } } := by
  simp only [getMetricsForOneServiceWithStatus, hs, hst]
  rfl

/-! ## The aggregation: `getAllMetrics` -/

/-- C1: for every registry and every upstream behaviour, `getAllMetrics` answers 200 with
a list of reports that has one report per registered service, the i-th report carrying
the name of the i-th service; the answer is never the 500
"Failed to fetch metrics from services". -/
theorem getAllMetrics_one_report_per_service (rt : Engine) (services : List Service)
    (up : Upstream) :
    ∃ reports : List Report,
      (getAllMetrics rt services up).response.status = 200 ∧
      (getAllMetrics rt services up).response.body = .reports reports ∧
      reports.length = services.length ∧
      reports.map Report.name = services.map (fun s => s.name) ∧
      (∀ i : Nat, (reports[i]?).map Report.name = (services[i]?).map (fun s => s.name)) ∧
      (getAllMetrics rt services up).response.status ≠ 500 ∧
      (getAllMetrics rt services up).response.body
        ≠ .error "Failed to fetch metrics from services" := by
  refine ⟨services.map (reportOf rt up), ?_, ?_, ?_, ?_, ?_, ?_, ?_⟩
  · rw [getAllMetrics_eq]
  · rw [getAllMetrics_eq]
  · simp
  · simp [List.map_map, Function.comp_def, reportOf_name]
  · intro i
    simp only [List.getElem?_map, Option.map_map]
    cases services[i]? <;> simp [reportOf_name]
  · rw [getAllMetrics_eq]; simp
  · rw [getAllMetrics_eq]; intro h; cases h

/-- C2: when the fetch of the j-th service fails with message `m`, its report is exactly
`{ name, error: "Error fetching metrics: " ++ m }`; and two upstream behaviours that agree
on the j-th service's URL give the same j-th report, whatever they answer elsewhere. -/
theorem getAllMetrics_failure_isolated (rt : Engine) (services : List Service)
    (up up2 : Upstream) (j : Nat) (s : Service)
    (hj : services[j]? = some s) (hagree : up2 s.url = up s.url) :
    ∃ (rs rs2 : List Report) (r : Report),
      (getAllMetrics rt services up).response.body = .reports rs ∧
      (getAllMetrics rt services up2).response.body = .reports rs2 ∧
      rs[j]? = some r ∧ rs2[j]? = some r ∧
      (∀ m : String, up s.url = .error m →
        r = .failed s.name ("Error fetching metrics: " ++ m)) := by
  obtain ⟨rs, hrs, hr⟩ := getAllMetrics_report_at rt services up j s hj
  obtain ⟨rs2, hrs2, hr2⟩ := getAllMetrics_report_at rt services up2 j s hj
  refine ⟨rs, rs2, reportOf rt up s, hrs, hrs2, hr, ?_, ?_⟩
  · rw [hr2, reportOf_congr rt up up2 s hagree]
  · intro m hm
    simp [reportOf, fetchStats_of_failure rt up s m hm]

/-- C3: when the fetch of the j-th service succeeds with the entry list `E`, its report is
`{ name, stats: { success, warn, error } }` where `success`, `warn` and `error` are the
numbers of entries of `E` whose level is exactly `info`, `warn` and `error`. -/
theorem getAllMetrics_counts_levels (rt : Engine) (services : List Service)
    (up : Upstream) (j : Nat) (s : Service) (E : List Json)
    (hj : services[j]? = some s) (hup : up s.url = .ok (.arr E))
    (hE : ∀ e ∈ E, e.isNull = false) :
    ∃ rs : List Report,
      (getAllMetrics rt services up).response.body = .reports rs ∧
      rs[j]? = some (.stats s.name
        { success := E.countP (fun e => e.level? == some "info"),
          warn := E.countP (fun e => e.level? == some "warn"),
          error := E.countP (fun e => e.level? == some "error") }) := by
  obtain ⟨rs, hrs, hr⟩ := getAllMetrics_report_at rt services up j s hj
  refine ⟨rs, hrs, ?_⟩
  rw [hr, reportOf_of_entries rt up s E hup hE]
  rfl

/-- C10: when the fetch of a service succeeds with the entry list `E`, the counters of its
report satisfy `success + warn + error ≤ E.length`, with equality exactly when every entry
has level `info`, `warn` or `error`; the sum is the number of such entries, so an entry is
counted at most once and an entry with another level, `warning` included, is not counted. -/
theorem getAllMetrics_counters_bounded (rt : Engine) (services : List Service)
    (up : Upstream) (j : Nat) (s : Service) (E : List Json)
    (hj : services[j]? = some s) (hup : up s.url = .ok (.arr E))
    (hE : ∀ e ∈ E, e.isNull = false) :
    ∃ (rs : List Report) (st : Stats),
      (getAllMetrics rt services up).response.body = .reports rs ∧
      rs[j]? = some (.stats s.name st) ∧
      st.success + st.warn + st.error ≤ E.length ∧
      (st.success + st.warn + st.error = E.length ↔
        ∀ e ∈ E, e.level? = some "info" ∨ e.level? = some "warn"
          ∨ e.level? = some "error") ∧
      st.success + st.warn + st.error
        = E.countP (fun e => e.level? == some "info" || e.level? == some "warn"
            || e.level? == some "error") ∧
      ((∀ e ∈ E, e.level? ≠ some "info" ∧ e.level? ≠ some "warn"
          ∧ e.level? ≠ some "error") →
        st = { success := 0, warn := 0, error := 0 }) ∧
      ((∀ e ∈ E, e.level? = some "warning") →
        st = { success := 0, warn := 0, error := 0 }) := by
  obtain ⟨rs, hrs, hr⟩ := getAllMetrics_report_at rt services up j s hj
  rw [reportOf_of_entries rt up s E hup hE] at hr
  have hsum := countP_levels_add E
  have hnone : (∀ e ∈ E, e.level? ≠ some "info" ∧ e.level? ≠ some "warn"
      ∧ e.level? ≠ some "error") →
      ({ success := E.countP (hasLevel "info"), warn := E.countP (hasLevel "warn"),
         error := E.countP (hasLevel "error") } : Stats)
        = { success := 0, warn := 0, error := 0 } := by
    intro h
    have h1 : E.countP (hasLevel "info") = 0 :=
      List.countP_eq_zero.mpr (fun e he => by simpa [hasLevel] using (h e he).1)
    have h2 : E.countP (hasLevel "warn") = 0 :=
      List.countP_eq_zero.mpr (fun e he => by simpa [hasLevel] using (h e he).2.1)
    have h3 : E.countP (hasLevel "error") = 0 :=
      List.countP_eq_zero.mpr (fun e he => by simpa [hasLevel] using (h e he).2.2)
    rw [h1, h2, h3]
  refine ⟨rs, _, hrs, hr, ?_, ?_, ?_, hnone, ?_⟩
  · show E.countP (hasLevel "info") + E.countP (hasLevel "warn")
        + E.countP (hasLevel "error") ≤ E.length
    rw [hsum]; exact List.countP_le_length _
  · show E.countP (hasLevel "info") + E.countP (hasLevel "warn")
        + E.countP (hasLevel "error") = E.length ↔ _
    rw [hsum, List.countP_eq_length]
    simp [counted, hasLevel, or_assoc]
  · exact hsum
  · intro h
    apply hnone
    intro e he
    rw [h e he]
    decide

/-- C2, on the mock of "should handle axios errors gracefully": the report of `service1`
is the same when `service2` answers something else. -/
theorem getAllMetrics_failure_isolated_witness :
    ∃ rs rs2 : List Report,
      (getAllMetrics v8 testServices failingUpstream).response.body = .reports rs ∧
      (getAllMetrics v8 testServices otherUpstream).response.body = .reports rs2 ∧
      rs[0]? = some (.failed "service1" "Error fetching metrics: Network fail") ∧
      rs2[0]? = some (.failed "service1" "Error fetching metrics: Network fail") := by
  obtain ⟨rs, rs2, r, h1, h2, h3, h4, h5⟩ :=
    getAllMetrics_failure_isolated v8 testServices failingUpstream otherUpstream 0 service1
      rfl rfl
  have hr : r = .failed "service1" "Error fetching metrics: Network fail" :=
    h5 "Network fail" rfl
  subst hr
  exact ⟨rs, rs2, h1, h2, h3, h4⟩

/-- C3, on the mock of "should return metrics summary for all services". -/
theorem getAllMetrics_counts_levels_witness :
    (∃ rs : List Report,
      (getAllMetrics v8 testServices summaryUpstream).response.body = .reports rs ∧
      rs[0]? = some (.stats "service1" { success := 2, warn := 1, error := 1 })) ∧
    (∃ rs : List Report,
      (getAllMetrics v8 testServices summaryUpstream).response.body = .reports rs ∧
      rs[1]? = some (.stats "service2" { success := 1, warn := 0, error := 2 })) :=
  ⟨getAllMetrics_counts_levels v8 testServices summaryUpstream 0 service1
      [entry "info", entry "warn", entry "error", entry "info"] rfl rfl (by decide),
   getAllMetrics_counts_levels v8 testServices summaryUpstream 1 service2
      [entry "info", entry "error", entry "error"] rfl rfl (by decide)⟩

/-- C10, on a body with a `warning` entry and a string: two entries out of four counted. -/
theorem getAllMetrics_counters_bounded_witness :
    ∃ (rs : List Report) (st : Stats),
      (getAllMetrics v8 testServices (constUpstream (.ok (.arr mixedEntries)))).response.body
        = .reports rs ∧
      rs[0]? = some (.stats "service1" st) ∧
      st.success + st.warn + st.error = 2 ∧ mixedEntries.length = 4 := by
  obtain ⟨rs, st, h1, h2, _, _, h5, _, _⟩ :=
    getAllMetrics_counters_bounded v8 testServices (constUpstream (.ok (.arr mixedEntries)))
      0 service1 mixedEntries rfl rfl (by decide)
  exact ⟨rs, st, h1, h2, h5, rfl⟩

/-! ## The single-service queries -/

/-- C4: for a registered name, an accepted status and a fetch that succeeds with the entry
list `E`, `getMetricsForOneServiceWithStatus` answers 200 with exactly the sublist of `E`
of the entries whose level equals the status: the entries are those of `E`, unmodified,
in their original order, each with its multiplicity. -/
theorem withStatus_returns_matching_sublist (rt : Engine) (services : List Service)
    (up : Upstream) (name status : String) (s : Service) (E : List Json)
    (hs : findService services name = some s)
    (hst : status = "info" ∨ status = "warning" ∨ status = "error")
    (hup : up s.url = .ok (.arr E)) (hE : ∀ e ∈ E, e.isNull = false) :
    ∃ R : List Json,
      (getMetricsForOneServiceWithStatus rt services up name status).response.status = 200 ∧
      (getMetricsForOneServiceWithStatus rt services up name status).response.body
        = .data (.arr R) ∧
      R = E.filter (fun e => e.level? == some status) ∧
      R.Sublist E ∧
      (∀ e, e ∈ R ↔ e ∈ E ∧ e.level? = some status) ∧
      (∀ q : Json → Bool, (∀ e, q e = true → e.level? = some status) →
        R.countP q = E.countP q) := by
  have hvalid : (!validStatuses.contains status) = false := by
    rcases hst with h | h | h <;> subst h <;> decide
  have hrun := withStatus_of_valid rt services up name status s hs hvalid
  simp only [hup, Except.bind, dataFilterLevel, filterLevel_of_no_null rt status E hE]
    at hrun
  refine ⟨E.filter (hasLevel status), ?_, ?_, rfl, List.filter_sublist E, ?_, ?_⟩
  · rw [hrun]
  · rw [hrun]
  · intro e
    simp [hasLevel]
  · intro q hq
    rw [List.countP_filter]
    apply List.countP_congr
    intro e _
    have := hq e
    simp only [hasLevel, Bool.and_eq_true, beq_iff_eq]
    tauto

/-- C5: both single-service handlers answer 404 exactly when no registered service has
the requested name (compared exactly); in that case the answer is
`{ error: "Service not found" }` and no fetch is made, whatever the status and the
upstream behaviour; otherwise the service queried is the first registry entry with that
name. -/
theorem lookup_is_exact_match (rt : Engine) (services : List Service) (up : Upstream)
    (name status : String) :
    ((getMetricsForOneService services up name).response.status = 404
      ↔ ∀ s ∈ services, s.name ≠ name) ∧
    ((getMetricsForOneServiceWithStatus rt services up name status).response.status = 404
      ↔ ∀ s ∈ services, s.name ≠ name) ∧
    ((∀ s ∈ services, s.name ≠ name) →
      getMetricsForOneService services up name
          = { calls := [],
              response := { status := 404, body := .error "Service not found" } } ∧
      getMetricsForOneServiceWithStatus rt services up name status
          = { calls := [],
              response := { status := 404, body := .error "Service not found" } }) ∧
    (∀ (before after : List Service) (s : Service),
      services = before ++ s :: after → s.name = name →
      (∀ t ∈ before, t.name ≠ name) →
        (getMetricsForOneService services up name).calls = [s.url] ∧
        (getMetricsForOneServiceWithStatus rt services up name status).calls
          = if status ∈ validStatuses then [s.url] else []) := by
  have hnone : (∀ s ∈ services, s.name ≠ name) →
      getMetricsForOneService services up name
          = { calls := [],
              response := { status := 404, body := .error "Service not found" } } ∧
      getMetricsForOneServiceWithStatus rt services up name status
          = { calls := [],
              response := { status := 404, body := .error "Service not found" } } := by
    intro h
    have hf := (findService_eq_none services name).mpr h
    simp only [getMetricsForOneService, getMetricsForOneServiceWithStatus, hf, and_self]
  refine ⟨⟨?_, fun h => by rw [(hnone h).1]⟩, ⟨?_, fun h => by rw [(hnone h).2]⟩, hnone, ?_⟩
  · intro h
    cases hf : findService services name with
    | none => exact (findService_eq_none services name).mp hf
    | some s =>
      rw [getMetricsForOneService_of_found services up name s hf] at h
      cases hu : up s.url <;> simp [hu] at h
  · intro h
    cases hf : findService services name with
    | none => exact (findService_eq_none services name).mp hf
    | some s =>
      cases hv : (!validStatuses.contains status) with
      | true =>
        rw [withStatus_of_invalid rt services up name status s hf hv] at h
        simp at h
      | false =>
        rw [withStatus_of_valid rt services up name status s hf hv] at h
        cases hu : (up s.url).bind (fun data => dataFilterLevel rt data status)
          <;> simp [hu] at h
  · intro before after s hsplit hname hbefore
    have hf : findService services name = some s :=
      (findService_first services name s).mpr ⟨hname, before, after, hsplit, hbefore⟩
    constructor
    · rw [getMetricsForOneService_of_found services up name s hf]
      cases up s.url <;> rfl
    · cases hv : (!validStatuses.contains status) with
      | true =>
        have hmem : status ∉ validStatuses := by
          simpa [validStatuses] using hv
        rw [withStatus_of_invalid rt services up name status s hf hv, if_neg hmem]
      | false =>
        have hmem : status ∈ validStatuses := by
          have h3 : ¬ (status ≠ "info" ∧ status ≠ "warning" ∧ status ≠ "error") := by
            rw [← not_contains_validStatuses, hv]; simp
          simp only [validStatuses, List.mem_cons, List.mem_singleton, List.mem_nil_iff,
            or_false]
          tauto
        rw [withStatus_of_valid rt services up name status s hf hv, if_pos hmem]
        cases (up s.url).bind (fun data => dataFilterLevel rt data status) <;> rfl

/-- C6: for a registered name and a status that is none of `info`, `warning`, `error`
(for instance `warn` or `success`), `getMetricsForOneServiceWithStatus` answers 400 with
the fixed message and never calls the upstream, so the run is the same for every upstream
behaviour; with an accepted status the answer is never 400. -/
theorem withStatus_rejects_unknown_status (rt : Engine) (services : List Service)
    (up : Upstream) (name status : String) (s : Service)
    (hs : findService services name = some s) :
    ((status ≠ "info" ∧ status ≠ "warning" ∧ status ≠ "error") →
      getMetricsForOneServiceWithStatus rt services up name status
        = { calls := [],
            response :=
              { status := 400,
                body := .error
                  "Invalid status parameter. Must be one of: info, warning, error" } } ∧
      ∀ up2 : Upstream,
        getMetricsForOneServiceWithStatus rt services up2 name status
          = getMetricsForOneServiceWithStatus rt services up name status) ∧
    (getMetricsForOneServiceWithStatus rt services up name "warn").response.status = 400 ∧
    (getMetricsForOneServiceWithStatus rt services up name "success").response.status
      = 400 ∧
    ((status = "info" ∨ status = "warning" ∨ status = "error") →
      (getMetricsForOneServiceWithStatus rt services up name status).response.status
        ≠ 400) := by
  refine ⟨?_, ?_, ?_, ?_⟩
  · intro h
    have hv := (not_contains_validStatuses status).mpr h
    refine ⟨withStatus_of_invalid rt services up name status s hs hv, fun up2 => ?_⟩
    rw [withStatus_of_invalid rt services up name status s hs hv,
      withStatus_of_invalid rt services up2 name status s hs hv]
  · rw [withStatus_of_invalid rt services up name "warn" s hs (by decide)]
  · rw [withStatus_of_invalid rt services up name "success" s hs (by decide)]
  · intro h
    have hv : (!validStatuses.contains status) = false := by
      rcases h with h | h | h <;> subst h <;> decide
    rw [withStatus_of_valid rt services up name status s hs hv]
    cases (up s.url).bind (fun data => dataFilterLevel rt data status) <;> simp

/-- C7: for a registered name, when the fetch fails with message `m`, both single-service
handlers answer 500 with body `{ error: "Could not fetch metrics from " ++ name ++ ", "
++ m }` (the filtered query for every accepted status); the failure is the value the
handler returns. -/
theorem upstream_failure_gives_500 (rt : Engine) (services : List Service)
    (up : Upstream) (name status m : String) (s : Service)
    (hs : findService services name = some s) (hup : up s.url = .error m) :
    s.name = name ∧
    getMetricsForOneService services up name
      = { calls := [s.url],
          response :=
            { status := 500,
              body := .error ("Could not fetch metrics from " ++ name ++ ", " ++ m) } } ∧
    ((status = "info" ∨ status = "warning" ∨ status = "error") →
      getMetricsForOneServiceWithStatus rt services up name status
        = { calls := [s.url],
            response :=
              { status := 500,
                body := .error ("Could not fetch metrics from " ++ name ++ ", "
                  ++ m) } }) := by
  have hname : s.name = name := ((findService_first services name s).mp hs).1
  refine ⟨hname, ?_, ?_⟩
  · rw [getMetricsForOneService_of_found services up name s hs, hup, hname]
  · intro h
    have hv : (!validStatuses.contains status) = false := by
      rcases h with h | h | h <;> subst h <;> decide
    rw [withStatus_of_valid rt services up name status s hs hv, hup, hname]
    rfl

/-- C9: for a registered name, when the fetch of the URL registered for that name succeeds
with the entry list `E`, `getMetricsForOneService` fetches that URL, once, and answers
200 with exactly `E`. -/
theorem getMetricsForOneService_returns_all_entries (services : List Service)
    (up : Upstream) (name : String) (s : Service) (E : List Json)
    (hs : findService services name = some s) (hup : up s.url = .ok (.arr E)) :
    s ∈ services ∧ s.name = name ∧
    (getMetricsForOneService services up name).calls = [s.url] ∧
    (getMetricsForOneService services up name).response.status = 200 ∧
    (getMetricsForOneService services up name).response.body = .data (.arr E) := by
  have hname : s.name = name := ((findService_first services name s).mp hs).1
  have hmem : s ∈ services := List.mem_of_find?_eq_some hs
  rw [getMetricsForOneService_of_found services up name s hs, hup]
  exact ⟨hmem, hname, rfl, rfl, rfl⟩

/-! ## Concrete instances -/

/-- C4, on the mock of "should return filtered metrics by status": `/service1/info` gives
the two `info` entries. -/
theorem withStatus_returns_matching_sublist_witness :
    ∃ R : List Json,
      (getMetricsForOneServiceWithStatus v8 testServices
        (constUpstream (.ok (.arr filterEntries))) "service1" "info").response.status = 200 ∧
      (getMetricsForOneServiceWithStatus v8 testServices
        (constUpstream (.ok (.arr filterEntries))) "service1" "info").response.body
          = .data (.arr R) ∧
      R = [entry "info", entry "info"] := by
  obtain ⟨R, h1, h2, h3, _⟩ :=
    withStatus_returns_matching_sublist v8 testServices
      (constUpstream (.ok (.arr filterEntries))) "service1" "info" service1 filterEntries
      rfl (Or.inl rfl) rfl (by decide)
  exact ⟨R, h1, h2, h3⟩

/-- C5, on concrete registries: a name that differs only by case is not found, and with a
repeated name the first entry is the one queried. -/
theorem lookup_is_exact_match_witness :
    (getMetricsForOneService testServices summaryUpstream "Service1").response.status
      = 404 ∧
    (getMetricsForOneService repeatedServices summaryUpstream "service1").calls
      = ["http://service1/api/metrics"] := by
  have h1 := lookup_is_exact_match v8 testServices summaryUpstream "Service1" "info"
  have h2 := lookup_is_exact_match v8 repeatedServices summaryUpstream "service1" "info"
  refine ⟨h1.1.mpr (by decide), ?_⟩
  exact (h2.2.2.2 [service2] [{ name := "service1", url := "http://mirror/api/metrics" }]
    service1 rfl rfl (by decide)).1

/-- C6, on the request `/service1/badstatus` of the test-suite. -/
theorem withStatus_rejects_unknown_status_witness :
    getMetricsForOneServiceWithStatus v8 testServices summaryUpstream "service1" "badstatus"
      = { calls := [],
          response :=
            { status := 400,
              body := .error
                "Invalid status parameter. Must be one of: info, warning, error" } } :=
  ((withStatus_rejects_unknown_status v8 testServices summaryUpstream "service1" "badstatus"
    service1 rfl).1 (by decide)).1

/-- C7, on the mock of "should return 500 on axios error". -/
theorem upstream_failure_gives_500_witness :
    getMetricsForOneService testServices (constUpstream (.error "Network error")) "service1"
      = { calls := ["http://service1/api/metrics"],
          response :=
            { status := 500,
              body := .error "Could not fetch metrics from service1, Network error" } } :=
  (upstream_failure_gives_500 v8 testServices (constUpstream (.error "Network error"))
    "service1" "info" "Network error" service1 rfl rfl).2.1

/-- C8, evaluated: `service1` is registered and its fetch completes with a body that is
an object (or a string), not an array of entries. `getMetricsForOneService` answers 200
with that body, where the claim asks for the 500 "Could not fetch metrics from service1,
...". On the same input the two other handlers do report a failure:
`getMetricsForOneServiceWithStatus` answers that 500 and `getAllMetrics` gives the report
`{ name, error }`. -/
theorem malformed_body_is_passed_on :
    findService testServices "service1" = some service1 ∧
    constUpstream (.ok objectBody) service1.url = .ok objectBody ∧
    (∀ E : List Json, objectBody ≠ .arr E) ∧
    getMetricsForOneService testServices (constUpstream (.ok objectBody)) "service1"
      = { calls := ["http://service1/api/metrics"],
          response := { status := 200, body := .data objectBody } } ∧
    ¬ (getMetricsForOneService testServices (constUpstream (.ok objectBody))
      "service1").response.status = 500 ∧
    getMetricsForOneService testServices (constUpstream (.ok (.str "maintenance")))
        "service1"
      = { calls := ["http://service1/api/metrics"],
          response := { status := 200, body := .data (.str "maintenance") } } ∧
    getMetricsForOneServiceWithStatus v8 testServices (constUpstream (.ok objectBody))
        "service1" "info"
      = { calls := ["http://service1/api/metrics"],
          response :=
            { status := 500,
              body := .error
                "Could not fetch metrics from service1, response.data.filter is not a function" } } ∧
    (∃ rs : List Report,
      (getAllMetrics v8 testServices (constUpstream (.ok objectBody))).response.body
        = .reports rs ∧
      rs[0]? = some (.failed "service1"
        "Error fetching metrics: response.data.filter is not a function")) := by
  refine ⟨rfl, rfl, ?_, rfl, by decide, rfl, rfl, ⟨_, rfl, rfl⟩⟩
  intro E h
  cases h

/-- C9, on the mock of "should return metrics for a valid service". -/
theorem getMetricsForOneService_returns_all_entries_witness :
    (getMetricsForOneService testServices
      (constUpstream (.ok (.arr [entry "info", entry "warn"]))) "service1").calls
        = ["http://service1/api/metrics"] ∧
    (getMetricsForOneService testServices
      (constUpstream (.ok (.arr [entry "info", entry "warn"]))) "service1").response.body
        = .data (.arr [entry "info", entry "warn"]) :=
  have h := getMetricsForOneService_returns_all_entries testServices
    (constUpstream (.ok (.arr [entry "info", entry "warn"]))) "service1" service1
    [entry "info", entry "warn"] rfl rfl
  ⟨h.2.2.1, h.2.2.2.2⟩

end SpotRMetrics
